import Mathlib

/-!
Verification of the Schemer interpreter (scheme.py, scheme_primitives.py,
scheme_tokens.py) against its natural-language specification.

The embedding is a deep model of the interpreter's Python source:

* `Value` models the runtime values: Python ints (`num`), bools (`bool`),
  strings used as symbols (`sym`), the `NULL` singleton (`nil`), Python
  `None` (`none`), `Pair` cells (`pair`), `LambdaProcedure` (`closure`,
  holding an index of its captured frame), and `PrimitiveProcedure`
  (`prim`).  Floats are not modelled (no claim exercises them).  Pairs are
  never mutated on any path a claim exercises, so they are modelled as
  immutable values.
* Environment frames are mutable in Python, so they live in an explicit
  `Store` (a list of frames addressed by index); a frame's `parent` is an
  optional index, `Option.none` for the global frame.
* `scheme_eval` is modelled with an explicit recursion-depth budget: every
  nested Python-level call of `scheme_eval` costs one unit of depth, and
  exhausting the budget yields `Err.recursionError` (Python's
  RecursionError).  Special-form handlers are parametrised by the evaluator
  for the next depth, exactly mirroring which Python calls are nested.
* Python dictionaries (`Frame.inner`) are insertion-ordered association
  lists; key comparison is Python `==` (`pyEq`).  `Pair` objects compare by
  identity in Python; every `Pair` used as a dictionary key in the modelled
  paths is freshly constructed and is never compared against another
  `Pair`, so `pyEq` soundly returns `false` on two pairs.
* The primitive registry is modelled for the primitives the claims
  exercise (`+`, `-`, `=`); the spec treats the concrete primitive library
  as an opaque external collaborator.  The environment-aware entries
  (`eval`, `apply`, `load`) are not exercised by any claim and are omitted
  from the modelled global frame.
-/

namespace Schemer

/-- Primitive procedures modelled from scheme_primitives.py. -/
inductive Prim where
  | padd   -- scheme_add, registered as "+"
  | psub   -- scheme_sub, registered as "-"
  | peq    -- scheme_eq, registered as "="
deriving DecidableEq, Repr

/-- Scheme runtime values / expressions (expressions double as data). -/
inductive Value where
  | num (n : Int)
  | bool (b : Bool)
  | sym (s : String)
  | nil
  | none
  | pair (a b : Value)
  | closure (formals body : Value) (env : Nat)
  | prim (p : Prim)
  | eof
deriving DecidableEq, Repr

/-- Errors.  `schemeError` is the interpreter's own `SchemeError`;
`typeError`, `attributeError` and `exception` are the raw Python
exceptions the source can raise (`TypeError` from a bad native call,
`AttributeError` from `.first` on a non-Pair, `raise Exception` in
`check_form`); `recursionError` is Python's stack-depth failure. -/
inductive Err where
  | schemeError (msg : String)
  | typeError (msg : String)
  | attributeError (msg : String)
  | exception (msg : String)
  | recursionError
deriving DecidableEq, Repr

/-- An environment frame: an insertion-ordered mapping plus a parent
reference (`Frame.__init__`). -/
structure Frame where
  inner : List (Value × Value)
  parent : Option Nat
deriving DecidableEq, Repr

/-- The heap of frames; Python object references become indices. -/
abbrev Store := List Frame

/-- Python `==` on the modelled values.  Numbers and booleans compare
cross-type (`True == 1` in Python); strings compare by content; the
`NULL`/`None` singletons are equal to themselves; `Pair`,
`LambdaProcedure` and `PrimitiveProcedure` objects compare by identity,
and every comparison the modelled code performs on them is between
distinct objects, so they are never equal. -/
def pyEq : Value → Value → Bool
  | .num a, .num b => a == b
  | .num a, .bool b => a == (if b then 1 else 0)
  | .bool a, .num b => (if a then (1 : Int) else 0) == b
  | .bool a, .bool b => a == b
  | .sym a, .sym b => a == b
  | .nil, .nil => true
  | .none, .none => true
  | .eof, .eof => true
  | _, _ => false

/-- Python truthiness of the modelled values: `False`, `0`, the empty
string, `NULL` (whose `__len__` is 0) and `None` are falsy; pairs,
closures and primitives are truthy objects. -/
def pyTruthy : Value → Bool
  | .bool b => b
  | .num n => n != 0
  | .sym s => s != ""
  | .nil => false
  | .none => false
  | _ => true

/-- scheme_symbolp: symbols are Python strings. -/
def scheme_symbolp : Value → Bool
  | .sym _ => true
  | _ => false

/-- scheme_booleanp. -/
def scheme_booleanp : Value → Bool
  | .bool _ => true
  | _ => false

/-- scheme_numberp: `isinstance(x, int)` is true of Python booleans too. -/
def scheme_numberp : Value → Bool
  | .num _ => true
  | .bool _ => true
  | _ => false

/-- scheme_nullp. -/
def scheme_nullp : Value → Bool
  | .nil => true
  | _ => false

/-- scheme_atomp: boolean, number, symbol or the empty list. -/
def scheme_atomp (v : Value) : Bool :=
  scheme_booleanp v || scheme_numberp v || scheme_symbolp v || scheme_nullp v

/-- scheme_listp: a well-formed (proper) list. -/
def scheme_listp : Value → Bool
  | .nil => true
  | .pair _ b => scheme_listp b
  | _ => false

/-- Number of elements of a proper Pair chain prefix (used below). -/
def properLen : Value → Nat
  | .pair _ b => properLen b + 1
  | _ => 0

/-- Python `str()` of a value, following `Pair.__str__`, `NULL.__str__`
and the default renderings; used only to build error-message text.
One structural pass computes both renderings a value can need: `.1` is
`str(v)` itself, `.2` is how `v` renders as the REST of a
`Pair.__str__` chain (`")"` after the last element, `" . v)"` for an
improper tail). -/
def pyStr2 : Value → String × String
  | .num n => (toString n, " . " ++ toString n ++ ")")
  | .bool b =>
      let s := if b then "True" else "False"
      (s, " . " ++ s ++ ")")
  | .sym s => (s, " . " ++ s ++ ")")
  | .nil => ("nil", ")")
  | .none => ("None", " . None)")
  | .eof => ("<EOF>", " . <EOF>)")
  | .prim _ => ("<primitive>", " . <primitive>)")
  | .pair a b =>
      let ra := pyStr2 a
      let rb := pyStr2 b
      ("(" ++ ra.1 ++ rb.2, " " ++ ra.1 ++ rb.2)
  | .closure f b _ =>
      let s := "(lambda " ++ (pyStr2 f).1 ++ " " ++ (pyStr2 b).1 ++ ")"
      (s, " . " ++ s ++ ")")

/-- Python `str()` of a value. -/
def pyStr (v : Value) : String := (pyStr2 v).1

/-- Python `len()` of a value: `Pair.__len__` raises a SchemeError on an
improper list; `NULL.__len__` is 0; `len` of a string counts characters;
other values raise TypeError. -/
def pyLen : Value → Except Err Nat
  | .nil => .ok 0
  | .sym s => .ok s.length
  | .pair a b =>
      if scheme_listp (Value.pair a b) then .ok (properLen (Value.pair a b))
      else .error (.schemeError "length attempted on improper list")
  | _ => .error (.typeError "object has no len")

/-- `.first` attribute access (AttributeError off a Pair). -/
def pyFirst : Value → Except Err Value
  | .pair a _ => .ok a
  | _ => .error (.attributeError "first")

/-- `.second` attribute access. -/
def pySecond : Value → Except Err Value
  | .pair _ b => .ok b
  | _ => .error (.attributeError "second")

/-- Indexing `v[k]`: `Pair.__getitem__` / `NULL.__getitem__` as in
scheme_primitives.py; indexing a string yields its k-th character as a
one-character string; other values raise TypeError. -/
def pyGetItem : Value → Nat → Except Err Value
  | .pair a _, 0 => .ok a
  | .pair _ b, k+1 =>
      match b with
      | .nil => .error (.schemeError "list index out of bounds")
      | .pair c d => pyGetItem (.pair c d) k
      | _ => .error (.schemeError "ill-formed list")
  | .nil, _ => .error (.schemeError "list index out of bounds")
  | .sym s, k =>
      if h : k < s.length then .ok (.sym (String.mk [s.data.get ⟨k, h⟩]))
      else .error (.exception "string index out of range")
  | _, _ => .error (.typeError "object is not subscriptable")

/-- Python dict assignment on an insertion-ordered association list:
overwrite the first `==`-equal key, else append. -/
def dictSet : List (Value × Value) → Value → Value → List (Value × Value)
  | [], k, v => [(k, v)]
  | (k₀, v₀) :: rest, k, v =>
      if pyEq k₀ k then (k₀, v) :: rest else (k₀, v₀) :: dictSet rest k v

/-- Python dict lookup. -/
def dictGet : List (Value × Value) → Value → Option Value
  | [], _ => Option.none
  | (k₀, v₀) :: rest, k => if pyEq k₀ k then some v₀ else dictGet rest k

/-- Python `key in dict`. -/
def dictHasKey (d : List (Value × Value)) (k : Value) : Bool :=
  d.any (fun kv => pyEq kv.fst k)

/-- Read a frame out of the store. -/
def getFrame (st : Store) (i : Nat) : Option Frame := st.get? i

/-- Replace the inner dictionary of frame `i`. -/
def setInner : Store → Nat → List (Value × Value) → Store
  | [], _, _ => []
  | f :: rest, 0, inner => { f with inner := inner } :: rest
  | f :: rest, i+1, inner => f :: setInner rest i inner

/-- Allocate a fresh frame, returning its index. -/
def alloc (st : Store) (f : Frame) : Nat × Store := (st.length, st ++ [f])

/-- `frame.inner[key] = val` on frame `i` of the store. -/
def storeBind (st : Store) (i : Nat) (k v : Value) : Store :=
  match getFrame st i with
  | Option.none => st
  | some f => setInner st i (dictSet f.inner k v)

/-- Build a proper Scheme list from a Lean list. -/
def toSchemeList : List Value → Value
  | [] => .nil
  | v :: r => .pair v (toSchemeList r)

/-- `Frame.find`: walk from frame `i` towards the root, returning the
first frame whose dictionary has the symbol; `unknown identifier` at the
root.  The chain-length fuel is a modelling device: the interpreter only
builds frames whose parent index is strictly smaller, so calling with
fuel `st.length + 1` always suffices to traverse the chain. -/
def findFr (st : Store) : Nat → Nat → Value → Except Err Nat
  | 0, _, s => .error (.schemeError ("unknown identifier: " ++ pyStr s))
  | fuel+1, i, s =>
      match getFrame st i with
      | Option.none => .error (.exception "invalid frame reference")
      | some f =>
          if dictHasKey f.inner s then .ok i
          else
            match f.parent with
            | Option.none =>
                .error (.schemeError ("unknown identifier: " ++ pyStr s))
            | some p => findFr st fuel p s

/-- `Frame.__getitem__`: `self.find(sym).inner[sym]`. -/
def lookupSym (st : Store) (i : Nat) (s : Value) : Except Err Value := do
  let j ← findFr st (st.length + 1) i s
  match getFrame st j with
  | some f =>
      match dictGet f.inner s with
      | some v => .ok v
      | Option.none => .error (.exception "key vanished")
  | Option.none => .error (.exception "invalid frame reference")

/-- The sequence of keys `zip` pulls from FORMALS, for the shapes whose
`len()` succeeded: the empty list, a proper Pair chain, or a string
(Python iterates a string by characters). -/
def formalsKeys : Value → List Value
  | .nil => []
  | .pair a b => a :: formalsKeys b
  | .sym s => s.data.map (fun c => Value.sym (String.mk [c]))
  | _ => []

/-- The `zip(formals, vals)` loop body of `make_call_frame`:
`frame.inner[key] = val` for each pair `zip` yields.  `zip` pulls a
formal first and stops when either side is exhausted; advancing the
value iterator into a non-Pair, non-NULL tail raises AttributeError
(`Pair.__iter__` accesses `.first`). -/
def zipBind : List (Value × Value) → List Value → Value → Except Err (List (Value × Value))
  | inner, [], _ => .ok inner
  | inner, _ :: _, .nil => .ok inner
  | inner, k :: ks, .pair v vs => zipBind (dictSet inner k v) ks vs
  | _, _ :: _, _ => .error (.attributeError "first")

/-- `Frame.make_call_frame(self, formals, vals)`, with `self` the frame
index `selfI`.  The `try` block runs `len(formals)` and then the `zip`
loop; only `len` can raise a `SchemeError` (an improper FORMALS chain),
which the `except SchemeError` clause handles by binding
`formals.first` to `vals.first` and `formals.second` — the whole
improper tail, whatever it is — to `vals.second`.  `do_let_form` passes
Python lists for FORMALS/VALS; `len` and `zip` treat those exactly like
the proper Scheme lists `toSchemeList` builds, so callers convert. -/
def make_call_frame (st : Store) (selfI : Nat) (formals vals : Value) :
    Except Err (Nat × Store) :=
  match pyLen formals with
  | .error (.schemeError _) =>
      match formals, vals with
      | .pair fa fb, .pair va vb =>
          .ok (alloc st { inner := dictSet (dictSet [] fa va) fb vb,
                          parent := some selfI })
      | .pair _ _, _ => .error (.attributeError "first")
      | _, _ => .error (.attributeError "first")
  | .error e => .error e
  | .ok _ => do
      let inner ← zipBind [] (formalsKeys formals) vals
      .ok (alloc st { inner := inner, parent := some selfI })

/-- Numeric value of an `isinstance(x, int)` operand (bools included:
`True == 1`). -/
def toIntVal : Value → Int
  | .num n => n
  | .bool b => if b then 1 else 0
  | _ => 0

/-- `_check_nums`, numbering operands from `i`. -/
def check_nums : Nat → List Value → Except Err Unit
  | _, [] => .ok ()
  | i, v :: rest =>
      if scheme_numberp v then check_nums (i+1) rest
      else .error (.schemeError
        ("operand " ++ toString i ++ " (" ++ pyStr v ++ ") is not a number"))

/-- `scheme_add` (`+`): `_arith(operator.add, 0, vals)`; all operands
are checked to be numbers; on integer operands the result stays an
integer. -/
def scheme_add (args : List Value) : Except Err Value := do
  check_nums 0 args
  .ok (.num (args.foldl (fun s v => s + toIntVal v) 0))

/-- `scheme_sub` (`-`): with no operands the call itself raises
TypeError; one operand is negated (TypeError when not a number);
otherwise `_arith(operator.sub, val0, vals)` checks only the trailing
operands, and a non-numeric `val0` surfaces as a TypeError from
`operator.sub`. -/
def scheme_sub : List Value → Except Err Value
  | [] => .error (.typeError "missing required argument")
  | [v] =>
      if scheme_numberp v then .ok (.num (- toIntVal v))
      else .error (.typeError "bad operand type for unary minus")
  | v0 :: rest => do
      check_nums 0 rest
      if scheme_numberp v0 then
        .ok (.num (rest.foldl (fun s v => s - toIntVal v) (toIntVal v0)))
      else .error (.typeError "unsupported operand type")

/-- `scheme_eq` (`=`): exactly two operands (TypeError otherwise),
both checked numeric by `_numcomp`. -/
def scheme_eq : List Value → Except Err Value
  | [x, y] => do
      check_nums 0 [x, y]
      .ok (.bool (toIntVal x == toIntVal y))
  | _ => .error (.typeError "wrong number of arguments")

/-- `apply_primitive`: run the native function; a TypeError raised by
the call is converted to `SchemeError("Wrong type of argument")`.  The
modelled primitives all have `use_env = False`, so no environment is
appended. -/
def apply_primitive (p : Prim) (args : List Value) : Except Err Value :=
  match (match p with
         | .padd => scheme_add args
         | .psub => scheme_sub args
         | .peq => scheme_eq args) with
  | .error (.typeError _) => .error (.schemeError "Wrong type of argument")
  | r => r

/-- Materialise `[arg for arg in args]` (`Pair.__iter__` /
`NULL.__iter__`); an improper tail raises AttributeError when the
iterator reaches it. -/
def pyToList : Value → Except Err (List Value)
  | .nil => .ok []
  | .pair a b => do
      let rest ← pyToList b
      .ok (a :: rest)
  | _ => .error (.attributeError "first")

/-- `check_form(expr, min, max)`: a non-list raises a plain Python
`Exception` (not a SchemeError); then the proper-list length is
compared against the bounds. -/
def check_form (expr : Value) (mn : Nat) (mx : Option Nat) : Except Err Unit :=
  if ¬ scheme_listp expr then
    .error (.exception ("badly formed expression: " ++ pyStr expr))
  else
    let length := properLen expr
    if length < mn then .error (.schemeError "too few operands in form")
    else
      match mx with
      | some m =>
          if length > m then .error (.schemeError "too many operands in form")
          else .ok ()
      | Option.none => .ok ()

/-- The `while type(formals.second) == Pair` loop of `check_formals`.
`args` is the Python list of characters accumulated by
`args += formals.first` (string concatenation extends by characters);
the duplicate test `formals.first in args` therefore only fires for
one-character symbols.  The `scheme_numberp` test inside the
`scheme_symbolp` branch of the source is unreachable (a string is never
a number) and is omitted.  A non-iterable element (number, boolean)
makes `args += formals.first` raise TypeError; `NULL` iterates to
nothing.  The final element and the list tail are never checked. -/
def check_formals_loop : List String → Value → Except Err Unit
  | args, .pair a b =>
      match b with
      | .pair _ _ =>
          match a with
          | .pair _ _ => .error (.schemeError "formal arguments cannot be pair")
          | .sym s =>
              if args.contains s then
                .error (.schemeError "formal arguments cannot have the same name")
              else
                check_formals_loop (args ++ s.data.map (fun c => String.mk [c])) b
          | .nil => check_formals_loop args b
          | _ => .error (.typeError "argument of type is not iterable")
      | _ => .ok ()
  | _, _ => .ok ()

/-- `check_formals(formals)`: a Pair enters the scanning loop; anything
else is accepted unless it is a number. -/
def check_formals : Value → Except Err Unit
  | .pair a b => check_formals_loop [] (.pair a b)
  | v =>
      if scheme_numberp v then
        .error (.schemeError "formal arguments cannot be number")
      else .ok ()

/-- Result of one evaluation step: a value together with the updated
frame store. -/
abbrev Res := Except Err (Value × Store)

/-- The evaluator each handler receives for its nested
`scheme_eval` calls (one recursion-depth unit below the caller). -/
abbrev EvalFn := Value → Nat → Store → Res

/-- `do_quote_form(vals)`: exactly one operand, returned unevaluated. -/
def do_quote_form (vals : Value) : Except Err Value := do
  check_form vals 1 (some 1)
  pyGetItem vals 0

/-- `do_lambda_form(vals, env)`: at least two operands; the formals are
validity-checked; a multi-expression body is wrapped in `begin`,
otherwise the single body expression is used directly.  The captured
environment is `env` — the frame current at construction. -/
def do_lambda_form (vals : Value) (envI : Nat) : Except Err Value := do
  check_form vals 2 Option.none
  let formals ← pyGetItem vals 0
  check_formals formals
  let body ← pySecond vals
  let n ← pyLen body
  if n != 1 then .ok (.closure formals (.pair (.sym "begin") body) envI)
  else do
    let b1 ← pyFirst body
    .ok (.closure formals b1 envI)

/-- `do_define_form(vals, env)`: `(define (name . formals) body...)`
builds a closure via `do_lambda_form` and writes it into the current
frame's dictionary; `(define name expr ...)` evaluates the first
expression after the name and binds it.  Returns the updated store. -/
def do_define_form (ev : EvalFn) (vals : Value) (envI : Nat) (st : Store) :
    Except Err Store := do
  check_form vals 2 Option.none
  let v0 ← pyFirst vals
  match v0 with
  | .pair fname fargs => do
      let fbody ← pySecond vals
      let func ← do_lambda_form (.pair fargs fbody) envI
      .ok (storeBind st envI fname func)
  | _ => do
      let rest ← pySecond vals
      let e1 ← pyFirst rest
      let (value, st₁) ← ev e1 envI st
      .ok (storeBind st₁ envI v0 value)

/-- `do_if_form(vals, env)`: exactly three operands; the test is
evaluated and Python truthiness of the result picks which branch
EXPRESSION is handed back (the branch itself is not evaluated here). -/
def do_if_form (ev : EvalFn) (vals : Value) (envI : Nat) (st : Store) : Res := do
  check_form vals 3 (some 3)
  let condition ← pyFirst vals
  let r ← pySecond vals
  let ifTrue ← pyFirst r
  let r2 ← pySecond r
  let ifFalse ← pyFirst r2
  let (t, st₁) ← ev condition envI st
  if pyTruthy t then .ok (ifTrue, st₁) else .ok (ifFalse, st₁)

/-- `do_and_form(vals, env)`: evaluate operands left to right,
returning `False` as soon as one compares `==` to `False` (`0` does),
else `True` after exhausting them. -/
def do_and_form (ev : EvalFn) : Value → Nat → Store → Res
  | .nil, _, st => .ok (.bool true, st)
  | .pair c rest, envI, st => do
      let (v, st₁) ← ev c envI st
      if pyEq v (.bool false) then .ok (.bool false, st₁)
      else do_and_form ev rest envI st₁
  | _, _, _ => .error (.attributeError "first")

/-- `do_or_form(vals, env)`: dual of `do_and_form`. -/
def do_or_form (ev : EvalFn) : Value → Nat → Store → Res
  | .nil, _, st => .ok (.bool false, st)
  | .pair c rest, envI, st => do
      let (v, st₁) ← ev c envI st
      if ¬ pyEq v (.bool false) then .ok (.bool true, st₁)
      else do_or_form ev rest envI st₁
  | _, _, _ => .error (.attributeError "first")

/-- `do_case_form`: the source returns `False` unconditionally. -/
def do_case_form (_vals : Value) (_envI : Nat) (st : Store) : Res :=
  .ok (.bool false, st)

/-- The `for statement in vals` loop of `do_begin_form`.  `i` counts the
elements already consumed (the Python counter is `i + 1` after its
increment); when the incremented counter equals `len(vals) - 1` the
element at that INDEX is returned unevaluated, otherwise the current
statement is evaluated for effect.  Falling off the loop returns
Python `None`. -/
def do_begin_loop (ev : EvalFn) (vals : Value) (n : Nat) :
    Nat → Value → Nat → Store → Res
  | _, .nil, _, st => .ok (.none, st)
  | i, .pair stmt rest, envI, st =>
      if i + 1 == n - 1 then do
        let v ← pyGetItem vals (i + 1)
        .ok (v, st)
      else do
        let (_, st₁) ← ev stmt envI st
        do_begin_loop ev vals n (i + 1) rest envI st₁
  | _, _, _, _ => .error (.attributeError "first")

/-- `do_begin_form(vals, env)`: at least one operand, then the counting
loop above. -/
def do_begin_form (ev : EvalFn) (vals : Value) (envI : Nat) (st : Store) : Res := do
  check_form vals 1 Option.none
  do_begin_loop ev vals (properLen vals) 0 vals envI st

/-- The `for i, clause in enumerate(vals)` loop of `do_cond_form`:
each clause must be a list of at least one element; an `else` head is
only legal in the last clause and must have a body; otherwise the test
is evaluated.  On a truthy test: a body of more than one expression is
evaluated as an implicit `begin`, exactly one body expression is
evaluated directly — both through a nested `scheme_eval`, so the
handler returns an already-evaluated VALUE here — and an empty body
returns `True`.  No matching clause returns Python `None`. -/
def do_cond_loop (ev : EvalFn) (nc : Nat) : Nat → Value → Nat → Store → Res
  | _, .nil, _, st => .ok (.none, st)
  | i, .pair clause rest, envI, st => do
      check_form clause 1 Option.none
      let cf ← pyFirst clause
      let cs ← pySecond clause
      let (test, st₁) ←
        (if pyEq cf (.sym "else") then
          if i + 1 < nc then .error (.schemeError "else must be last")
          else if cs == Value.nil then
            .error (.schemeError "badly formed else clause")
          else .ok (Value.bool true, st)
        else ev cf envI st)
      if pyTruthy test then do
        let bl ← pyLen cs
        if bl > 1 then ev (.pair (.sym "begin") cs) envI st₁
        else if bl == 1 then do
          let b1 ← pyFirst cs
          ev b1 envI st₁
        else .ok (.bool true, st₁)
      else do_cond_loop ev nc (i + 1) rest envI st₁
  | _, _, _, _ => .error (.attributeError "first")

/-- `do_cond_form(vals, env)`: `len(vals)` first (a SchemeError on an
improper clause list), then the clause scan. -/
def do_cond_form (ev : EvalFn) (vals : Value) (envI : Nat) (st : Store) : Res := do
  let nc ← pyLen vals
  do_cond_loop ev nc 0 vals envI st

/-- The binding-collection loop of `do_let_form`: for each item, record
`item.first` and evaluate `item.second.first` in the OUTER environment
(bindings do not see each other). -/
def let_collect (ev : EvalFn) : Value → Nat → Store → Except Err (List Value × List Value × Store)
  | .nil, _, st => .ok ([], [], st)
  | .pair item rest, envI, st => do
      let name ← pyFirst item
      let isecond ← pySecond item
      let vexpr ← pyFirst isecond
      let (v, st₁) ← ev vexpr envI st
      let (ns, vs, st₂) ← let_collect ev rest envI st₁
      .ok (name :: ns, v :: vs, st₂)
  | _, _, _ => .error (.attributeError "first")

/-- `for i in range(0, last): scheme_eval(exprs[i], env)` — evaluate the
first `k` elements of the proper list `exprs` for effect. -/
def eval_body_prefix (ev : EvalFn) (envI : Nat) : Nat → Value → Store → Except Err Store
  | 0, _, st => .ok st
  | k+1, .pair e rest, st => do
      let (_, st₁) ← ev e envI st
      eval_body_prefix ev envI k rest st₁
  | _+1, _, st => .ok st

/-- `do_let_form(vals, env)`: evaluate every binding value in the outer
environment, build one child frame holding all the bindings (the
Python-list arguments to `make_call_frame` behave as the corresponding
proper lists), evaluate all body expressions but the last in the NEW
frame, and hand back the last body expression with the new frame.  The
source's `except UnboundLocalError` clause is unreachable (`name` is
assigned before anything in the loop can raise) and is not modelled. -/
def do_let_form (ev : EvalFn) (vals : Value) (envI : Nat) (st : Store) :
    Except Err (Value × Nat × Store) := do
  check_form vals 2 Option.none
  let bindings ← pyFirst vals
  let exprs ← pySecond vals
  if ¬ scheme_listp bindings then
    .error (.schemeError "bad bindings list in let form")
  else do
    let (names, vlist, st₁) ← let_collect ev bindings envI st
    let (newEnv, st₂) ← make_call_frame st₁ envI (toSchemeList names) (toSchemeList vlist)
    let last := properLen exprs - 1
    let st₃ ← eval_body_prefix ev newEnv last exprs st₂
    let lastE ← pyGetItem exprs last
    .ok (lastE, newEnv, st₃)

/-- The `for binding in bindings` loop of `do_let_star_form`: each
binding's value expression is evaluated in the NEW frame (which already
holds every earlier binding of the same `let*`), and the result is then
written into that frame. -/
def let_star_bindings (ev : EvalFn) (newEnv : Nat) : Value → Store → Except Err Store
  | .nil, st => .ok st
  | .pair binding rest, st => do
      let name ← pyGetItem binding 0
      let vexpr ← pyGetItem binding 1
      let (value, st₁) ← ev vexpr newEnv st
      let_star_bindings ev newEnv rest (storeBind st₁ newEnv name value)
  | _, _ => .error (.attributeError "first")

/-- `do_let_star_form(vals, env)`: an empty child frame is created and
filled sequentially by `let_star_bindings`; the body expressions before
the last are then evaluated in the OUTER environment, and the last body
expression is handed back with the OUTER environment (the source
returns `exprs[last], env`, not the new frame). -/
def do_let_star_form (ev : EvalFn) (vals : Value) (envI : Nat) (st : Store) :
    Except Err (Value × Nat × Store) := do
  check_form vals 2 Option.none
  let bindings ← pyFirst vals
  let exprs ← pySecond vals
  if ¬ scheme_listp bindings then
    .error (.schemeError "bad bindings list in let form")
  else do
    let (newEnv, st₁) ← make_call_frame st envI .nil .nil
    let st₂ ← let_star_bindings ev newEnv bindings st₁
    let last := properLen exprs - 1
    let st₃ ← eval_body_prefix ev envI last exprs st₂
    let lastE ← pyGetItem exprs last
    .ok (lastE, envI, st₃)

/-- `rest.map(lambda operand: scheme_eval(operand, env))`
(`Pair.map` / `NULL.map`): evaluate the operands left to right into a
fresh proper list; an improper operand tail raises
`SchemeError("ill-formed list")` after the earlier operands were
already evaluated. -/
def eval_operands (ev : EvalFn) : Value → Nat → Store → Res
  | .nil, _, st => .ok (.nil, st)
  | .pair a b, envI, st => do
      let (v, st₁) ← ev a envI st
      match b with
      | .nil => .ok (.pair v .nil, st₁)
      | .pair _ _ => do
          let (rest, st₂) ← eval_operands ev b envI st₁
          .ok (.pair v rest, st₂)
      | _ => .error (.schemeError "ill-formed list")
  | _, _, _ => .error (.attributeError "map")

/-- `scheme_apply(procedure, args, env)`.  A `PrimitiveProcedure`
materialises the argument list and calls the native function through
`apply_primitive`.  A `LambdaProcedure` also materialises the (unused)
`arg_list`, then builds the call frame with
`env.make_call_frame(procedure.formals, args)` — `env` is the CALLING
environment `envI`; the closure's captured `procedure.env` is never
consulted — and evaluates `procedure.body` in the new frame.  Anything
else cannot be called. -/
def scheme_apply (ev : EvalFn) (procedure args : Value) (envI : Nat) (st : Store) : Res :=
  match procedure with
  | .prim p => do
      let argList ← pyToList args
      let v ← apply_primitive p argList
      .ok (v, st)
  | .closure formals body _cenv => do
      let _argList ← pyToList args
      let (newFrame, st₁) ← make_call_frame st envI formals args
      ev body newFrame st₁
  | _ => .error (.schemeError ("Cannot call " ++ pyStr procedure))

/-- `first in LOGIC_FORMS`: dictionary membership compares the head
against the six string keys with Python `==`. -/
def isLogicForm : Value → Bool
  | .sym s => s == "and" || s == "or" || s == "if" || s == "cond" ||
              s == "begin" || s == "case"
  | _ => false

/-- `scheme_eval(expr, env)` with an explicit recursion-depth budget:
the first argument is the number of nested host-language
(`scheme_eval`) activations still allowed; every nested evaluation —
operands, handler-internal evaluations, the re-evaluation of a logic
handler's result, the `let`/`let*` continuation, a closure body — runs
at depth one less, exactly as each is a nested Python call.  A budget
of zero is Python's RecursionError. -/
def scheme_eval : Nat → Value → Nat → Store → Res
  | 0, _, _, _ => .error .recursionError
  | d+1, expr, envI, st =>
      match expr with
      | .none => .error (.schemeError "Cannot evaluate an undefined expression.")
      | e =>
          if scheme_symbolp e then do
            let v ← lookupSym st envI e
            .ok (v, st)
          else if scheme_atomp e then .ok (e, st)
          else if ¬ scheme_listp e then
            .error (.schemeError ("malformed list: " ++ pyStr e))
          else
            match e with
            | .pair first rest =>
                if isLogicForm first then do
                  let (r, st₁) ←
                    (match first with
                     | .sym s =>
                         if s == "and" then do_and_form (scheme_eval d) rest envI st
                         else if s == "or" then do_or_form (scheme_eval d) rest envI st
                         else if s == "if" then do_if_form (scheme_eval d) rest envI st
                         else if s == "cond" then do_cond_form (scheme_eval d) rest envI st
                         else if s == "begin" then do_begin_form (scheme_eval d) rest envI st
                         else do_case_form rest envI st
                     | _ => .error (.exception "unreachable logic dispatch"))
                  scheme_eval d r envI st₁
                else if pyEq first (.sym "lambda") then do
                  let v ← do_lambda_form rest envI
                  .ok (v, st)
                else if pyEq first (.sym "define") then do
                  let st₁ ← do_define_form (scheme_eval d) rest envI st
                  .ok (.none, st₁)
                else if pyEq first (.sym "quote") then do
                  let v ← do_quote_form rest
                  .ok (v, st)
                else if pyEq first (.sym "let") then do
                  let (e₂, env₂, st₁) ← do_let_form (scheme_eval d) rest envI st
                  scheme_eval d e₂ env₂ st₁
                else if pyEq first (.sym "let*") then do
                  let (e₂, env₂, st₁) ← do_let_star_form (scheme_eval d) rest envI st
                  scheme_eval d e₂ env₂ st₁
                else do
                  let (procedure, st₁) ← scheme_eval d first envI st
                  let (args, st₂) ← eval_operands (scheme_eval d) rest envI st₁
                  scheme_apply (scheme_eval d) procedure args envI st₂
            | _ => .error (.exception "unreachable: proper non-atom is a pair")

/-- `create_global_frame()`: the single root frame.  Of the primitive
registry only the primitives the claims exercise are modelled; the
environment-aware `eval`/`apply`/`load` entries are omitted (no claim
touches them). -/
def create_global_frame : Store :=
  [{ inner := [(.sym "+", .prim .padd), (.sym "-", .prim .psub),
               (.sym "=", .prim .peq)],
     parent := Option.none }]

/-- Evaluate a sequence of top-level expressions the way
`read_eval_print` does: one `scheme_eval` per form, each starting from
the top of the host stack (the full depth budget), threading the global
store; the value of the last form is returned. -/
def evalSeq (d : Nat) : List Value → Nat → Store → Res
  | [], _, st => .ok (.none, st)
  | [e], envI, st => scheme_eval d e envI st
  | e :: rest, envI, st => do
      let (_, st₁) ← scheme_eval d e envI st
      evalSeq d rest envI st₁

/-- `val in DELIMITERS`: the reader's delimiter tokens are the strings
`(`, `)`, `'` and `.`; a non-string token is never in the set. -/
def isDelimiter : Value → Bool
  | .sym s => s == "(" || s == ")" || s == "'" || s == "."
  | _ => false

/-- The reader over the token list the tokenizer produces (atoms are
already `Value`s; delimiters are the strings above).  One structurally
recursive function holds both entry points: `tail = false` is
`scheme_read(input_port)` — exhausted input yields the EOF sentinel, a
non-delimiter atom is returned as popped, `'` wraps the next expression
in `quote`, `(` reads a list tail, and any other leading token is a
syntax error.  `tail = true` is `read_tail()` — end of input inside a
list is a syntax error; `)` closes the list; `.` reads the remaining
tail, which must contain exactly one element (`len(a) != 1` rejects
more, and `len` itself raises on an improper tail), whose first
element becomes the improper tail; otherwise a full expression is read
(nothing popped first) and consed onto the remaining tail.  The fuel
only bounds nesting of reader activations. -/
def readF : Nat → Bool → List Value → Except Err (Value × List Value)
  | 0, _, _ => .error .recursionError
  | _+1, false, [] => .ok (.eof, [])
  | d+1, false, tok :: rest =>
      if scheme_atomp tok && ¬ isDelimiter tok then .ok (tok, rest)
      else if pyEq tok (.sym "'") then do
        let (e, rest₁) ← readF d false rest
        .ok (.pair (.sym "quote") (.pair e .nil), rest₁)
      else if pyEq tok (.sym "(") then readF d true rest
      else .error (.schemeError ("unexpected token: " ++ pyStr tok))
  | _+1, true, [] => .error (.schemeError "unexpected end of file")
  | d+1, true, tok :: rest =>
      if pyEq tok (.sym ")") then .ok (.nil, rest)
      else if pyEq tok (.sym ".") then do
        let (a, rest₁) ← readF d true rest
        let n ← pyLen a
        if n != 1 then .error (.schemeError "too many elements in pair")
        else do
          let f ← pyFirst a
          .ok (f, rest₁)
      else do
        let (e, rest₁) ← readF d false (tok :: rest)
        let (t, rest₂) ← readF d true rest₁
        .ok (.pair e t, rest₂)

/-- `scheme_read(input_port)`. -/
def scheme_read (d : Nat) (input : List Value) : Except Err (Value × List Value) :=
  readF d false input

/-- `read_tail()`. -/
def read_tail (d : Nat) (input : List Value) : Except Err (Value × List Value) :=
  readF d true input

/-! Concrete programs the claims below evaluate, and small helpers. -/

/-- The value of running top-level forms from a fresh global frame. -/
def runValue (d : Nat) (prog : List Value) : Except Err Value :=
  (evalSeq d prog 0 create_global_frame).map Prod.fst

/-- Monad-bind reduction for `Except` on a success (by definition). -/
theorem exBindOk {α β : Type} (a : α) (f : α → Except Err β) :
    (Except.ok a >>= f) = f a := rfl

/-- Monad-bind reduction for `Except` on an error (by definition). -/
theorem exBindErr {α β : Type} (e : Err) (f : α → Except Err β) :
    ((Except.error e : Except Err α) >>= f) = .error e := rfl

/-- `(define (f x) (lambda () x))`. -/
def defineF : Value :=
  toSchemeList [.sym "define", toSchemeList [.sym "f", .sym "x"],
                toSchemeList [.sym "lambda", .nil, .sym "x"]]

/-- `((f 1))`. -/
def callF : Value := toSchemeList [toSchemeList [.sym "f", .num 1]]

/-- `(define (loop n) (if (= n 0) 0 (loop (- n 1))))` — a self-recursive
closure whose recursive call is in tail position. -/
def defineLoop : Value :=
  toSchemeList [.sym "define", toSchemeList [.sym "loop", .sym "n"],
    toSchemeList [.sym "if",
      toSchemeList [.sym "=", .sym "n", .num 0],
      .num 0,
      toSchemeList [.sym "loop", toSchemeList [.sym "-", .sym "n", .num 1]]]]

/-- `(loop k)`. -/
def callLoop (k : Int) : Value := toSchemeList [.sym "loop", .num k]

/-- Decidable equality for `Except`, so claim instances evaluate. -/
instance {ε α : Type} [DecidableEq ε] [DecidableEq α] : DecidableEq (Except ε α) := fun a b =>
  match a, b with
  | .ok x, .ok y =>
      if h : x = y then isTrue (h ▸ rfl) else isFalse (fun hh => h (Except.ok.inj hh))
  | .error x, .error y =>
      if h : x = y then isTrue (h ▸ rfl) else isFalse (fun hh => h (Except.error.inj hh))
  | .ok _, .error _ => isFalse (fun hh => Except.noConfusion hh)
  | .error _, .ok _ => isFalse (fun hh => Except.noConfusion hh)

/-- Improper variadic formals `(a b . c)`. -/
def variadicFormals : Value := .pair (.sym "a") (.pair (.sym "b") (.sym "c"))

/-- The frame `make_call_frame` actually builds from `(a b . c)` and
`(1 2 3 4)`: `a ↦ 1` plus the improper tail PAIR `(b . c)` itself used
as a dictionary key, mapped to `(2 3 4)`; `b` and `c` stay unbound. -/
def variadicFrame4 : Frame :=
  { inner := [(.sym "a", .num 1),
              (.pair (.sym "b") (.sym "c"), toSchemeList [.num 2, .num 3, .num 4])],
    parent := some 0 }

/-- Likewise from `(a b . c)` and `(1 2)`. -/
def variadicFrame2 : Frame :=
  { inner := [(.sym "a", .num 1),
              (.pair (.sym "b") (.sym "c"), toSchemeList [.num 2])],
    parent := some 0 }

/-- `(let* ((x 1) (y (+ x 1))) 0)`. -/
def letStarProg : Value :=
  toSchemeList [.sym "let*",
    toSchemeList [toSchemeList [.sym "x", .num 1],
                  toSchemeList [.sym "y", toSchemeList [.sym "+", .sym "x", .num 1]]],
    .num 0]

/-- `(let ((x 1) (y (+ x 1))) 0)` — same bindings under plain `let`. -/
def letProg : Value :=
  toSchemeList [.sym "let",
    toSchemeList [toSchemeList [.sym "x", .num 1],
                  toSchemeList [.sym "y", toSchemeList [.sym "+", .sym "x", .num 1]]],
    .num 0]

set_option maxRecDepth 8000

/-- Claim C1: applying a closure is claimed to build the call frame as a
child of the closure's CAPTURED defining environment, so that after
`(define (f x) (lambda () x))` the call `((f 1))` evaluates to `1`.
The code (`scheme_apply`) instead builds the frame with
`env.make_call_frame` on the CALLING environment and never consults
`procedure.env`: `((f 1))` from the global frame looks `x` up in the
caller's chain and fails with an unbound-identifier error, and for any
closure the allocated frame's parent is the caller `envI` whatever the
captured index `cenv` was. -/
theorem c1_dynamic_scope_bug :
    evalSeq 50 [defineF, callF] 0 create_global_frame
      = .error (.schemeError "unknown identifier: x")
    ∧ ∀ (d cenv envI : Nat) (body : Value) (st : Store),
        scheme_apply (scheme_eval d) (.closure .nil body cenv) .nil envI st
          = scheme_eval d body st.length (st ++ [{ inner := [], parent := some envI }]) :=
  ⟨by decide, fun _ _ _ _ _ => rfl⟩

/-- Claim C2 (counterexample): the claim says an n-iteration
tail-recursive loop completes without the evaluation recursion depth
growing with n; but with the fixed depth budget 20 the loop
`(define (loop n) (if (= n 0) 0 (loop (- n 1))))` completes for
`(loop 3)` yet dies with the host stack-depth failure for `(loop 40)` —
the depth needed grows with the iteration count. -/
theorem c2_counterexample :
    runValue 20 [defineLoop, callLoop 3] = .ok (.num 0)
    ∧ runValue 20 [defineLoop, callLoop 40] = .error .recursionError :=
  ⟨by decide, by decide⟩

/-- Claim C2 (amended): the evaluator does not loop for tail-position
continuations — each one is a nested host-language call — so the
recursion depth an n-iteration tail-recursive loop needs grows with n:
budget 20 suffices for `(loop 3)`, is exhausted by `(loop 40)`, and
`(loop 40)` completes under the larger budget 200. -/
theorem c2_depth_growth :
    runValue 20 [defineLoop, callLoop 3] = .ok (.num 0)
    ∧ runValue 20 [defineLoop, callLoop 40] = .error .recursionError
    ∧ runValue 200 [defineLoop, callLoop 40] = .ok (.num 0) :=
  ⟨by decide, by decide, by decide⟩

/-- Claim C3: `make_call_frame` with formals `(a b . c)` is claimed to
bind `a`, `b` positionally and `c` to the remaining arguments.  In the
code, `len(formals)` raises on the improper list and the `except`
branch binds only `formals.first` (`a`) and then uses `formals.second`
— the PAIR `(b . c)` itself — as a dictionary key for all remaining
values: with `(1 2 3 4)` the frame maps `a ↦ 1` and `(b . c) ↦ (2 3 4)`,
with `(1 2)` it maps `a ↦ 1` and `(b . c) ↦ (2)`, and looking `b` or
`c` up in the new frame fails with an unbound-identifier error. -/
theorem c3_variadic_binding_bug :
    make_call_frame create_global_frame 0 variadicFormals
        (toSchemeList [.num 1, .num 2, .num 3, .num 4])
      = .ok (1, create_global_frame ++ [variadicFrame4])
    ∧ make_call_frame create_global_frame 0 variadicFormals
        (toSchemeList [.num 1, .num 2])
      = .ok (1, create_global_frame ++ [variadicFrame2])
    ∧ lookupSym (create_global_frame ++ [variadicFrame4]) 1 (.sym "a") = .ok (.num 1)
    ∧ lookupSym (create_global_frame ++ [variadicFrame4]) 1 (.sym "b")
      = .error (.schemeError "unknown identifier: b")
    ∧ lookupSym (create_global_frame ++ [variadicFrame4]) 1 (.sym "c")
      = .error (.schemeError "unknown identifier: c") :=
  ⟨by decide, by decide, by decide, by decide, by decide⟩

/-- Claim C4: an arity mismatch between a proper formals list and the
argument values is claimed to raise an arity error.  The code's
`zip(formals, vals)` silently truncates to the shorter side: `(a b c)`
with `(1 2)` returns a frame binding only `a, b` (`c` unbound, no
error), `(a b)` with `(1 2 3)` returns a frame ignoring the extra
argument; matching lengths do bind positionally. -/
theorem c4_missing_arity_check :
    make_call_frame create_global_frame 0
        (toSchemeList [.sym "a", .sym "b", .sym "c"]) (toSchemeList [.num 1, .num 2])
      = .ok (1, create_global_frame ++
          [{ inner := [(.sym "a", .num 1), (.sym "b", .num 2)], parent := some 0 }])
    ∧ make_call_frame create_global_frame 0
        (toSchemeList [.sym "a", .sym "b"]) (toSchemeList [.num 1, .num 2, .num 3])
      = .ok (1, create_global_frame ++
          [{ inner := [(.sym "a", .num 1), (.sym "b", .num 2)], parent := some 0 }])
    ∧ make_call_frame create_global_frame 0
        (toSchemeList [.sym "a", .sym "b", .sym "c"]) (toSchemeList [.num 1, .num 2, .num 3])
      = .ok (1, create_global_frame ++
          [{ inner := [(.sym "a", .num 1), (.sym "b", .num 2), (.sym "c", .num 3)],
             parent := some 0 }]) :=
  ⟨by decide, by decide, by decide⟩

/-- Claim C5: `(begin e1 ... en)` is claimed to evaluate `e1 .. e(n-1)`
for effect and yield `en`.  The code's counting loop is off by one: for
n = 1 it falls off the loop returning Python `None`, which the
dispatcher then rejects — `(begin 1)` raises
"Cannot evaluate an undefined expression." instead of returning 1 —
and for n ≥ 2 it skips evaluating `e(n-1)`:
`(begin (define x 1) x)` never executes the `define` and fails with an
unbound-identifier error instead of returning 1. -/
theorem c5_begin_bug :
    scheme_eval 50 (toSchemeList [.sym "begin", .num 1]) 0 create_global_frame
      = .error (.schemeError "Cannot evaluate an undefined expression.")
    ∧ scheme_eval 50
        (toSchemeList [.sym "begin",
          toSchemeList [.sym "define", .sym "x", .num 1], .sym "x"])
        0 create_global_frame
      = .error (.schemeError "unknown identifier: x") :=
  ⟨by decide, by decide⟩

/-- Claim C6: a `cond` clause with one body expression is claimed to
yield that expression for tail evaluation, evaluated exactly once, so
`(cond (#t (quote a)))` should be the symbol `a`.  The code's
`do_cond_form` already evaluates the body expression itself and the
dispatcher `scheme_eval(LOGIC_FORMS[first](rest, env), env)` evaluates
that RESULT again: with `a` unbound the form raises an
unbound-identifier error, and after `(define a 5)` it returns the value
bound to `a`, not the symbol. -/
theorem c6_cond_double_evaluation :
    scheme_eval 50
        (toSchemeList [.sym "cond",
          toSchemeList [.bool true, toSchemeList [.sym "quote", .sym "a"]]])
        0 create_global_frame
      = .error (.schemeError "unknown identifier: a")
    ∧ runValue 50
        [toSchemeList [.sym "define", .sym "a", .num 5],
         toSchemeList [.sym "cond",
           toSchemeList [.bool true, toSchemeList [.sym "quote", .sym "a"]]]]
      = .ok (.num 5) :=
  ⟨by decide, by decide⟩

/-- Claim C8 (counterexample): reading `( . 1)` — the token sequence
`(`, `.`, `1`, `)` — is claimed to raise a syntax error; the reader
instead returns the value 1 with the input consumed. -/
theorem c8_counterexample :
    scheme_read 10 [.sym "(", .sym ".", .num 1, .sym ")"] = .ok (.num 1, []) :=
  by decide

/-- Claim C8 (amended): `read_tail` treats a dot immediately after the
open parenthesis like any other dot — the single following expression
becomes the entire tail — so reading `( . 1)` returns 1 rather than
raising; the neighbouring error cases of the same spec sentence do
raise (`(1 . 2 3)` has too many elements after the dot, `(1 2` hits end
of file). -/
theorem c8_dot_after_open :
    scheme_read 10 [.sym "(", .sym ".", .num 1, .sym ")"] = .ok (.num 1, [])
    ∧ read_tail 10 [.sym ".", .num 1, .sym ")"] = .ok (.num 1, [])
    ∧ scheme_read 10 [.sym "(", .num 1, .sym ".", .num 2, .num 3, .sym ")"]
      = .error (.schemeError "too many elements in pair")
    ∧ scheme_read 10 [.sym "(", .num 1, .num 2]
      = .error (.schemeError "unexpected end of file") :=
  ⟨by decide, by decide, by decide, by decide⟩

/-- Claim C7: whenever the `cond` clause the scan selects has a truthy
test and no body expressions, the whole form yields the distinguished
true value.  General part: at any point of the clause scan
(`do_cond_loop`, any index/clause-count/state), a leading non-`else`
clause `(test)` whose test evaluates truthy yields `.bool true` with
the test's resulting store.  Concrete part: the spec's example
`(cond (#f 1) (#t) (else 2))` evaluates to true (not 2). -/
theorem c7_cond_bodiless_true :
    (∀ (d nc i envI : Nat) (st : Store) (test rest tv : Value) (st₁ : Store),
      scheme_eval d test envI st = .ok (tv, st₁) →
      pyTruthy tv = true →
      pyEq test (.sym "else") = false →
      do_cond_loop (scheme_eval d) nc i (.pair (.pair test .nil) rest) envI st
        = .ok (.bool true, st₁))
    ∧ scheme_eval 50
        (toSchemeList [.sym "cond", toSchemeList [.bool false, .num 1],
          toSchemeList [.bool true], toSchemeList [.sym "else", .num 2]])
        0 create_global_frame
      = .ok (.bool true, create_global_frame) := by
  constructor
  · intro d nc i envI st test rest tv st₁ h1 h2 h3
    have step : do_cond_loop (scheme_eval d) nc i (.pair (.pair test .nil) rest) envI st
        = ((if pyEq test (.sym "else") then
              (if i + 1 < nc then (Except.error (Err.schemeError "else must be last") : Res)
               else .error (.schemeError "badly formed else clause"))
            else scheme_eval d test envI st) >>= fun r =>
            if pyTruthy r.1 then .ok (.bool true, r.2)
            else do_cond_loop (scheme_eval d) nc (i + 1) rest envI r.2) := rfl
    rw [step, if_neg (by rw [h3]; exact Bool.false_ne_true), h1, exBindOk]
    simp [h2]
  · decide

/-- Witness for the general part of `c7_cond_bodiless_true`, at the
clause `(#t)` scanned as the only clause from the global frame. -/
theorem c7_cond_bodiless_true_witness :
    scheme_eval 5 (.bool true) 0 create_global_frame
      = .ok (.bool true, create_global_frame)
    ∧ do_cond_loop (scheme_eval 5) 1 0 (.pair (.pair (.bool true) .nil) .nil)
        0 create_global_frame
      = .ok (.bool true, create_global_frame) :=
  ⟨by decide,
   c7_cond_bodiless_true.1 5 1 0 0 create_global_frame (.bool true) .nil
     (.bool true) create_global_frame (by decide) (by decide) (by decide)⟩

/-- Claim C9: every `let*` binding's value expression is evaluated in
the new frame, which already holds all earlier bindings of the same
`let*`.  General part: processing a binding `(name vexpr)` evaluates
`vexpr` at the `let*` frame `i` itself, writes the result into frame
`i`, and only then processes the remaining bindings.  Concrete part:
with `x`, `y` unbound outside, `(let* ((x 1) (y (+ x 1))) 0)` succeeds
and leaves the `let*` frame mapping `x ↦ 1, y ↦ 2` — `(+ x 1)` saw the
earlier binding — while the same bindings under plain `let` fail with
an unbound-identifier error for `x`. -/
theorem c9_let_star_sequential :
    (∀ (d i : Nat) (st : Store) (name vexpr v : Value) (st₁ : Store) (rest : Value),
      scheme_eval d vexpr i st = .ok (v, st₁) →
      let_star_bindings (scheme_eval d) i (.pair (toSchemeList [name, vexpr]) rest) st
        = let_star_bindings (scheme_eval d) i rest (storeBind st₁ i name v))
    ∧ (scheme_eval 50 letStarProg 0 create_global_frame).map (fun r => (r.1, getFrame r.2 1))
      = .ok (.num 0, some { inner := [(.sym "x", .num 1), (.sym "y", .num 2)],
                            parent := some 0 })
    ∧ scheme_eval 50 letProg 0 create_global_frame
      = .error (.schemeError "unknown identifier: x") := by
  refine ⟨?_, by decide, by decide⟩
  intro d i st name vexpr v st₁ rest h
  have step : let_star_bindings (scheme_eval d) i (.pair (toSchemeList [name, vexpr]) rest) st
      = (scheme_eval d vexpr i st) >>= fun r =>
          let_star_bindings (scheme_eval d) i rest (storeBind r.2 i name r.1) := rfl
  rw [step, h, exBindOk]

/-- Witness for the general part of `c9_let_star_sequential`, at the
single binding `(z 3)` processed in the global frame. -/
theorem c9_let_star_sequential_witness :
    scheme_eval 5 (.num 3) 0 create_global_frame = .ok (.num 3, create_global_frame)
    ∧ let_star_bindings (scheme_eval 5) 0
        (.pair (toSchemeList [.sym "z", .num 3]) .nil) create_global_frame
      = let_star_bindings (scheme_eval 5) 0 .nil
          (storeBind create_global_frame 0 (.sym "z") (.num 3)) :=
  ⟨by decide,
   c9_let_star_sequential.1 5 0 create_global_frame (.sym "z") (.num 3) (.num 3)
     create_global_frame .nil (by decide)⟩

/-- Claim C10: `if` selects a branch by host-language truthiness of the
evaluated test, not by comparison with the distinguished false value:
whenever the test evaluates to the integer 0 or to the empty list, the
ALTERNATE expression is handed back (and the whole `if` evaluation
continues with the alternate, never evaluating the consequent). -/
theorem c10_if_truthiness :
    ∀ (d : Nat) (testE cE aE : Value) (envI : Nat) (st : Store) (v : Value) (st₁ : Store),
      scheme_eval d testE envI st = .ok (v, st₁) →
      (v = .num 0 ∨ v = .nil) →
      do_if_form (scheme_eval d) (toSchemeList [testE, cE, aE]) envI st = .ok (aE, st₁)
      ∧ scheme_eval (d+1) (.pair (.sym "if") (toSchemeList [testE, cE, aE])) envI st
        = scheme_eval d aE envI st₁ := by
  intro d testE cE aE envI st v st₁ h hv
  have hfalse : pyTruthy v = false := by
    rcases hv with h0 | h0 <;> subst h0 <;> rfl
  have step : do_if_form (scheme_eval d) (toSchemeList [testE, cE, aE]) envI st
      = (scheme_eval d testE envI st) >>= fun r =>
          if pyTruthy r.1 then .ok (cE, r.2) else .ok (aE, r.2) := rfl
  have part1 : do_if_form (scheme_eval d) (toSchemeList [testE, cE, aE]) envI st
      = .ok (aE, st₁) := by
    rw [step, h, exBindOk]
    simp [hfalse]
  refine ⟨part1, ?_⟩
  have step2 : scheme_eval (d+1) (.pair (.sym "if") (toSchemeList [testE, cE, aE])) envI st
      = (do_if_form (scheme_eval d) (toSchemeList [testE, cE, aE]) envI st) >>= fun r =>
          scheme_eval d r.1 envI r.2 := rfl
  rw [step2, part1, exBindOk]

/-- Witness for `c10_if_truthiness`: the test `0` (a value that is not
the boolean false) selects the alternate `7`; the consequent is the
unbound symbol `boom` and is never evaluated. -/
theorem c10_if_truthiness_witness :
    scheme_eval 5 (.num 0) 0 create_global_frame = .ok (.num 0, create_global_frame)
    ∧ (do_if_form (scheme_eval 5) (toSchemeList [.num 0, .sym "boom", .num 7])
          0 create_global_frame
        = .ok (.num 7, create_global_frame)
      ∧ scheme_eval (5+1) (.pair (.sym "if") (toSchemeList [.num 0, .sym "boom", .num 7]))
          0 create_global_frame
        = scheme_eval 5 (.num 7) 0 create_global_frame) :=
  ⟨by decide,
   c10_if_truthiness 5 (.num 0) (.sym "boom") (.num 7) 0 create_global_frame
     (.num 0) create_global_frame (by decide) (Or.inl rfl)⟩

end Schemer
